import Mathlib

/-!
Shallow embedding of the ShiftRegLCD driver
(src/lib/ShiftRegLCD/ShiftRegLCD.cpp): a shift-register based
HD44780 LCD driver.  The source file includes a header
(ShiftRegLCD.h) that is not part of the repository snapshot; the
numeric constants it defines are modelled from the specification
(bit layout of the shift-register frame, HD44780 command opcodes
and flag bits from the controller datasheet the source cites).
All machine arithmetic is on Nat with explicit truncation
(mod 256) exactly where the C code stores into a uint8_t or
passes a uint8_t parameter.
-/

namespace ShiftRegLCDModel

/-- Modelled from the spec: sentinel enable-pin value selecting two-wire
mode (the header defining it is absent from the repository; its numeric
value is immaterial, only the equality test in init observes it). -/
def TWO_WIRE : Nat := 255

/-- Modelled from the spec: shift-register frame bit 7 is the
enable-gate bit. -/
def SR_EN_BIT : Nat := 0x80

/-- Modelled from the spec: shift-register frame bit 2 is the
register-select (RS) bit. -/
def SR_RS_BIT : Nat := 0x04

/-- Modelled from the spec: HD44780 clear-display command opcode. -/
def LCD_CLEARDISPLAY : Nat := 0x01
/-- Modelled from the spec: HD44780 return-home command opcode. -/
def LCD_RETURNHOME : Nat := 0x02
/-- Modelled from the spec: HD44780 entry-mode-set command opcode. -/
def LCD_ENTRYMODESET : Nat := 0x04
/-- Modelled from the spec: HD44780 display-control command opcode. -/
def LCD_DISPLAYCONTROL : Nat := 0x08
/-- Modelled from the spec: HD44780 cursor/display-shift command opcode. -/
def LCD_CURSORSHIFT : Nat := 0x10
/-- Modelled from the spec: HD44780 function-set command opcode. -/
def LCD_FUNCTIONSET : Nat := 0x20
/-- Modelled from the spec: HD44780 set-CGRAM-address command opcode. -/
def LCD_SETCGRAMADDR : Nat := 0x40
/-- Modelled from the spec: HD44780 set-DDRAM-address command opcode. -/
def LCD_SETDDRAMADDR : Nat := 0x80

/-- Modelled from the spec: entry-mode flag, text direction left-to-right. -/
def LCD_ENTRYLEFT : Nat := 0x02
/-- Modelled from the spec: entry-mode flag, shift display on write. -/
def LCD_ENTRYSHIFTINCREMENT : Nat := 0x01
/-- Modelled from the spec: entry-mode flag, no display shift on write. -/
def LCD_ENTRYSHIFTDECREMENT : Nat := 0x00

/-- Modelled from the spec: display-control flag, display on. -/
def LCD_DISPLAYON : Nat := 0x04
/-- Modelled from the spec: display-control flag, cursor on. -/
def LCD_CURSORON : Nat := 0x02
/-- Modelled from the spec: display-control flag, cursor off. -/
def LCD_CURSOROFF : Nat := 0x00
/-- Modelled from the spec: display-control flag, blink on. -/
def LCD_BLINKON : Nat := 0x01
/-- Modelled from the spec: display-control flag, blink off. -/
def LCD_BLINKOFF : Nat := 0x00

/-- Modelled from the spec: cursor-shift flag, move display. -/
def LCD_DISPLAYMOVE : Nat := 0x08
/-- Modelled from the spec: cursor-shift flag, move right. -/
def LCD_MOVERIGHT : Nat := 0x04
/-- Modelled from the spec: cursor-shift flag, move left. -/
def LCD_MOVELEFT : Nat := 0x00

/-- Modelled from the spec: HD44780 function-set flag, 8-bit interface
(datasheet DL bit, bit 4). -/
def LCD_8BITMODE : Nat := 0x10
/-- Modelled from the spec: HD44780 function-set flag, 4-bit interface. -/
def LCD_4BITMODE : Nat := 0x00
/-- Modelled from the spec: HD44780 function-set flag, two display lines
(datasheet N bit, bit 3); the spec notes this is an enum-like line-count
value, not the last valid row index. -/
def LCD_2LINE : Nat := 0x08
/-- Modelled from the spec: HD44780 function-set flag, one display line. -/
def LCD_1LINE : Nat := 0x00
/-- Modelled from the spec: HD44780 function-set flag, 5x10 dot font
(datasheet F bit, bit 2). -/
def LCD_5x10DOTS : Nat := 0x04
/-- Modelled from the spec: HD44780 function-set flag, 5x8 dot font. -/
def LCD_5x8DOTS : Nat := 0x00

/-- Driver state: the two-wire flag and the cached controller-mode
fields of the ShiftRegLCD object (pin numbers are not modelled: no
claim observes them).  Fields mirror the C++ members underscore-free:
two_wire, numlines, displayfunction, displaycontrol, displaymode. -/
structure ShiftRegLCD where
  two_wire : Bool
  numlines : Nat
  displayfunction : Nat
  displaycontrol : Nat
  displaymode : Nat
deriving DecidableEq, Repr

/-- One invocation of a transmission primitive at the byte level:
cmd v is send(v, LOW) (via command), dat v is send(v, HIGH) (via
write), nib v is init4bits(v), the nibble-only bootstrap path. -/
inductive Tx where
  | cmd (v : Nat)
  | dat (v : Nat)
  | nib (v : Nat)
deriving DecidableEq, Repr

/-- ShiftRegLCD::command(uint8_t value): one command-mode send; the
uint8_t parameter truncates the argument to a byte. -/
def command (value : Nat) : Tx := Tx.cmd (value % 256)

/-- ShiftRegLCD::write(uint8_t value): one data-mode send, and the
size_t return value of the C++ function (the source returns 0). -/
def write (value : Nat) : List Tx × Nat := ([Tx.dat (value % 256)], 0)

/-- ShiftRegLCD::init4bits at the byte level: one nibble-only
bootstrap transmission. -/
def init4bitsTx (value : Nat) : Tx := Tx.nib (value % 256)

/-- ShiftRegLCD::clear: clear-display command (the 2000us settle delay
is not observable at this level). -/
def clear (st : ShiftRegLCD) : ShiftRegLCD × List Tx :=
  (st, [command LCD_CLEARDISPLAY])

/-- ShiftRegLCD::home: return-home command. -/
def home (st : ShiftRegLCD) : ShiftRegLCD × List Tx :=
  (st, [command LCD_RETURNHOME])

/-- The local row_offsets table of ShiftRegLCD::setCursor. -/
def row_offsets : List Nat := [0x00, 0x40, 0x14, 0x54]

/-- The row clamp of ShiftRegLCD::setCursor: if row > _numlines then
row = _numlines - 1, where the subtraction is on uint8_t (so numlines
= 0 wraps to 255); modelled as (numlines + 255) % 256. -/
def clampRow (numlines row : Nat) : Nat :=
  if row > numlines then (numlines + 255) % 256 else row

/-- ShiftRegLCD::setCursor(col, row): clamp, then index row_offsets and
send the set-DDRAM-address command.  The C array subscript has no
bounds check; the embedding returns none exactly when the subscript
is out of the 4-entry table (an out-of-bounds read in the source). -/
def setCursor (st : ShiftRegLCD) (col row : Nat) : Option Tx :=
  (row_offsets.get? (clampRow st.numlines row)).map
    (fun off => command (LCD_SETDDRAMADDR ||| (col + off)))

/-- ShiftRegLCD::noDisplay: clear the display-on bit and resend the
display-control command.  The C expression is dc &= ~LCD_DISPLAYON on
a uint8_t field: the int-level complement then the uint8_t store
amount to masking with the byte complement, modelled as
&&& (0xFF ^^^ flag) followed by % 256. -/
def noDisplay (st : ShiftRegLCD) : ShiftRegLCD × List Tx :=
  let dc := (st.displaycontrol &&& (0xFF ^^^ LCD_DISPLAYON)) % 256
  ({ st with displaycontrol := dc }, [command (LCD_DISPLAYCONTROL ||| dc)])

/-- ShiftRegLCD::display: set the display-on bit and resend the
display-control command. -/
def display (st : ShiftRegLCD) : ShiftRegLCD × List Tx :=
  let dc := (st.displaycontrol ||| LCD_DISPLAYON) % 256
  ({ st with displaycontrol := dc }, [command (LCD_DISPLAYCONTROL ||| dc)])

/-- ShiftRegLCD::noCursor. -/
def noCursor (st : ShiftRegLCD) : ShiftRegLCD × List Tx :=
  let dc := (st.displaycontrol &&& (0xFF ^^^ LCD_CURSORON)) % 256
  ({ st with displaycontrol := dc }, [command (LCD_DISPLAYCONTROL ||| dc)])

/-- ShiftRegLCD::cursor. -/
def cursor (st : ShiftRegLCD) : ShiftRegLCD × List Tx :=
  let dc := (st.displaycontrol ||| LCD_CURSORON) % 256
  ({ st with displaycontrol := dc }, [command (LCD_DISPLAYCONTROL ||| dc)])

/-- ShiftRegLCD::noBlink. -/
def noBlink (st : ShiftRegLCD) : ShiftRegLCD × List Tx :=
  let dc := (st.displaycontrol &&& (0xFF ^^^ LCD_BLINKON)) % 256
  ({ st with displaycontrol := dc }, [command (LCD_DISPLAYCONTROL ||| dc)])

/-- ShiftRegLCD::blink. -/
def blink (st : ShiftRegLCD) : ShiftRegLCD × List Tx :=
  let dc := (st.displaycontrol ||| LCD_BLINKON) % 256
  ({ st with displaycontrol := dc }, [command (LCD_DISPLAYCONTROL ||| dc)])

/-- ShiftRegLCD::scrollDisplayLeft: transient shift command, no cached
state change. -/
def scrollDisplayLeft (st : ShiftRegLCD) : ShiftRegLCD × List Tx :=
  (st, [command (LCD_CURSORSHIFT ||| LCD_DISPLAYMOVE ||| LCD_MOVELEFT)])

/-- ShiftRegLCD::scrollDisplayRight. -/
def scrollDisplayRight (st : ShiftRegLCD) : ShiftRegLCD × List Tx :=
  (st, [command (LCD_CURSORSHIFT ||| LCD_DISPLAYMOVE ||| LCD_MOVERIGHT)])

/-- ShiftRegLCD::shiftLeft: set the entry-direction bit and resend the
entry-mode command. -/
def shiftLeft (st : ShiftRegLCD) : ShiftRegLCD × List Tx :=
  let dm := (st.displaymode ||| LCD_ENTRYLEFT) % 256
  ({ st with displaymode := dm }, [command (LCD_ENTRYMODESET ||| dm)])

/-- ShiftRegLCD::shiftRight. -/
def shiftRight (st : ShiftRegLCD) : ShiftRegLCD × List Tx :=
  let dm := (st.displaymode &&& (0xFF ^^^ LCD_ENTRYLEFT)) % 256
  ({ st with displaymode := dm }, [command (LCD_ENTRYMODESET ||| dm)])

/-- ShiftRegLCD::shiftIncrement. -/
def shiftIncrement (st : ShiftRegLCD) : ShiftRegLCD × List Tx :=
  let dm := (st.displaymode ||| LCD_ENTRYSHIFTINCREMENT) % 256
  ({ st with displaymode := dm }, [command (LCD_ENTRYMODESET ||| dm)])

/-- ShiftRegLCD::shiftDecrement. -/
def shiftDecrement (st : ShiftRegLCD) : ShiftRegLCD × List Tx :=
  let dm := (st.displaymode &&& (0xFF ^^^ LCD_ENTRYSHIFTINCREMENT)) % 256
  ({ st with displaymode := dm }, [command (LCD_ENTRYMODESET ||| dm)])

/-- ShiftRegLCD::createChar(location, charmap): mask location to 3
bits, set the CGRAM address, write the 8 glyph rows via write (whose
return value the loop discards), then reset to DDRAM address 0. -/
def createChar (location : Nat) (charmap : Fin 8 → Nat) : List Tx :=
  command (LCD_SETCGRAMADDR ||| ((location &&& 0x7) <<< 3)) ::
    ((List.finRange 8).map (fun i => (write (charmap i)).1)).flatten ++
    [command LCD_SETDDRAMADDR]

/-- ShiftRegLCD::init(srdata, srclock, enable, lines, font): builds the
driver state and the full byte-level transmission trace of the
initialization sequence (pin setup and delays are not observable at
this level).  Field assignments and the call order mirror the source:
three 8-bit-mode bootstrap nibbles, one 4-bit-mode nibble, function
set, display on, clear, entry mode, home. -/
def init (enable lines font : Nat) : ShiftRegLCD × List Tx :=
  let tw := enable == TWO_WIRE
  let nl := if lines > 1 then LCD_2LINE else LCD_1LINE
  let df0 := LCD_4BITMODE ||| nl
  let df := if font != 0 then df0 ||| LCD_5x10DOTS else df0 ||| LCD_5x8DOTS
  let st0 : ShiftRegLCD :=
    { two_wire := tw, numlines := nl, displayfunction := df
      displaycontrol := 0, displaymode := 0 }
  let boot : List Tx :=
    [init4bitsTx (LCD_FUNCTIONSET ||| LCD_8BITMODE),
     init4bitsTx (LCD_FUNCTIONSET ||| LCD_8BITMODE),
     init4bitsTx (LCD_FUNCTIONSET ||| LCD_8BITMODE),
     init4bitsTx (LCD_FUNCTIONSET ||| LCD_4BITMODE)]
  let st1 := { st0 with
    displaycontrol := (LCD_DISPLAYON ||| LCD_CURSOROFF ||| LCD_BLINKOFF) % 256 }
  let pd := display st1
  let st2 := pd.1
  let st3 := { st2 with
    displaymode := (LCD_ENTRYLEFT ||| LCD_ENTRYSHIFTDECREMENT) % 256 }
  (st3,
    boot ++ [command (LCD_FUNCTIONSET ||| df)] ++ pd.2 ++ (clear st2).2
      ++ [command (LCD_ENTRYMODESET ||| st3.displaymode)] ++ (home st3).2)

/-- A realistic post-initialization state with a two-line display and
the default font, three-wire. -/
def sampleState : ShiftRegLCD := (init 1 2 0).1

/-- A realistic post-initialization state in two-wire mode. -/
def sampleTwoWire : ShiftRegLCD := (init TWO_WIRE 2 0).1

/-- One hardware event of the transmission primitives: a shiftOut of a
byte to the shift register, a digitalWrite of the enable pin, or a
busy-wait of the given number of microseconds. -/
inductive Ev where
  | shift (v : Nat)
  | en (level : Bool)
  | delay (us : Nat)
deriving DecidableEq, Repr

/-- The RS computation of ShiftRegLCD::send:
mode = mode ? SR_RS_BIT : 0. -/
def rsBit (mode : Nat) : Nat := if mode ≠ 0 then SR_RS_BIT else 0

/-- val1 of ShiftRegLCD::send: rs | SR_EN_BIT | ((value >> 1) & 0x78),
the upper nibble of value placed in frame bits 6..3. -/
def upperFrame (value rs : Nat) : Nat :=
  rs ||| SR_EN_BIT ||| ((value >>> 1) &&& 0x78)

/-- val2 of ShiftRegLCD::send: rs | SR_EN_BIT | ((value << 3) & 0x78),
the lower nibble of value placed in frame bits 6..3. -/
def lowerFrame (value rs : Nat) : Nat :=
  rs ||| SR_EN_BIT ||| ((value <<< 3) &&& 0x78)

/-- ShiftRegLCD::send(value, mode) as its hardware event trace, in
source order: optional two-wire register clear, enable low, first
frame, enable pulse, optional two-wire clear, second frame, enable
pulse, settle delay. -/
def send (st : ShiftRegLCD) (value mode : Nat) : List Ev :=
  (if st.two_wire then [Ev.shift 0x00] else []) ++
  [Ev.en false,
   Ev.shift (upperFrame value (rsBit mode)),
   Ev.en true, Ev.delay 1, Ev.en false] ++
  (if st.two_wire then [Ev.shift 0x00] else []) ++
  [Ev.shift (lowerFrame value (rsBit mode)),
   Ev.en true, Ev.delay 1, Ev.en false, Ev.delay 40]

/-- ShiftRegLCD::init4bits(value) as its hardware event trace: optional
two-wire register clear, enable low, the single nibble frame (no RS
bit), enable pulse, settle delay. -/
def init4bits (st : ShiftRegLCD) (value : Nat) : List Ev :=
  (if st.two_wire then [Ev.shift 0x00] else []) ++
  [Ev.en false,
   Ev.shift (SR_EN_BIT ||| ((value >>> 1) &&& 0x78)),
   Ev.en true, Ev.delay 1, Ev.en false, Ev.delay 40]

/-- The bytes shifted out to the register by a trace, in order. -/
def shifts (t : List Ev) : List Nat :=
  t.filterMap (fun e => match e with | Ev.shift v => some v | _ => none)

/-- The levels written to the enable pin by a trace, in order. -/
def enables (t : List Ev) : List Bool :=
  t.filterMap (fun e => match e with | Ev.en l => some l | _ => none)

/-- The non-zero bytes shifted out by a trace: the data-carrying
frames, as opposed to the 0x00 register clears of two-wire mode (every
frame carries SR_EN_BIT and is therefore non-zero). -/
def frames (t : List Ev) : List Nat :=
  (shifts t).filter (fun v => v != 0)

/-- Recognizer for function-set transmissions: a command or bootstrap
nibble whose byte lies in the function-set opcode range 0x20..0x3F;
data bytes are never commands. -/
def isFunctionSet : Tx → Bool
  | Tx.cmd v => decide (0x20 ≤ v) && decide (v < 0x40)
  | Tx.nib v => decide (0x20 ≤ v) && decide (v < 0x40)
  | Tx.dat _ => false

theorem or_lt_256 {a b : Nat} (ha : a < 256) (hb : b < 256) :
    a ||| b < 256 := by
  have h : (256 : Nat) = 2 ^ 8 := by norm_num
  rw [h] at ha hb ⊢
  exact Nat.or_lt_two_pow ha hb

theorem command_or_mod (c f : Nat) (hc : c < 256) :
    command (c ||| f % 256) = Tx.cmd (c ||| f % 256) := by
  unfold command
  rw [Nat.mod_eq_of_lt (or_lt_256 hc (Nat.mod_lt _ (by norm_num)))]

theorem command_dc (f : Nat) :
    command (LCD_DISPLAYCONTROL ||| f % 256) =
      Tx.cmd (LCD_DISPLAYCONTROL ||| f % 256) :=
  command_or_mod _ _ (by decide)

theorem command_em (f : Nat) :
    command (LCD_ENTRYMODESET ||| f % 256) =
      Tx.cmd (LCD_ENTRYMODESET ||| f % 256) :=
  command_or_mod _ _ (by decide)

theorem byte_or_mod_or_idem (x c : Nat) :
    ((x ||| c) % 256 ||| c) % 256 = (x ||| c) % 256 := by
  apply Nat.eq_of_testBit_eq
  intro i
  have h256 : (256 : Nat) = 2 ^ 8 := by norm_num
  rw [h256]
  simp only [Nat.testBit_mod_two_pow, Nat.testBit_or]
  by_cases hi : i < 8
  · simp [hi, Bool.or_assoc]
  · simp [hi]

theorem or_en_or_ne_zero (a b : Nat) : a ||| SR_EN_BIT ||| b ≠ 0 := by
  intro h
  have h7 : (a ||| SR_EN_BIT ||| b).testBit 7 = true := by
    have he : (SR_EN_BIT : Nat).testBit 7 = true := by decide
    simp [Nat.testBit_or, he]
  rw [h] at h7
  simp at h7

theorem en_or_ne_zero (b : Nat) : SR_EN_BIT ||| b ≠ 0 := by
  intro h
  have h7 : (SR_EN_BIT ||| b).testBit 7 = true := by
    have he : (SR_EN_BIT : Nat).testBit 7 = true := by decide
    simp [Nat.testBit_or, he]
  rw [h] at h7
  simp at h7

theorem upperFrame_ne_zero (value rs : Nat) : upperFrame value rs ≠ 0 :=
  or_en_or_ne_zero rs ((value >>> 1) &&& 0x78)

theorem lowerFrame_ne_zero (value rs : Nat) : lowerFrame value rs ≠ 0 :=
  or_en_or_ne_zero rs ((value <<< 3) &&& 0x78)

theorem frames_send (st : ShiftRegLCD) (value mode : Nat) :
    frames (send st value mode) =
      [upperFrame value (rsBit mode), lowerFrame value (rsBit mode)] := by
  have h1 : (upperFrame value (rsBit mode) != 0) = true := by
    simp [bne_iff_ne]
    exact upperFrame_ne_zero value (rsBit mode)
  have h2 : (lowerFrame value (rsBit mode) != 0) = true := by
    simp [bne_iff_ne]
    exact lowerFrame_ne_zero value (rsBit mode)
  cases h : st.two_wire <;>
    simp [frames, send, shifts, h, List.filter, h1, h2]

set_option maxRecDepth 100000 in
theorem recon_rs0 : ∀ v, v < 256 →
    ((upperFrame v 0 >>> 3) &&& 0xF) * 16 +
      ((lowerFrame v 0 >>> 3) &&& 0xF) = v := by decide

set_option maxRecDepth 100000 in
theorem recon_rs4 : ∀ v, v < 256 →
    ((upperFrame v SR_RS_BIT >>> 3) &&& 0xF) * 16 +
      ((lowerFrame v SR_RS_BIT >>> 3) &&& 0xF) = v := by decide

set_option maxRecDepth 100000 in
theorem bit2_rs0 : ∀ v, v < 256 →
    (upperFrame v 0 >>> 2) &&& 1 = 0 ∧
      (lowerFrame v 0 >>> 2) &&& 1 = 0 := by decide

set_option maxRecDepth 100000 in
theorem bit2_rs4 : ∀ v, v < 256 →
    (upperFrame v SR_RS_BIT >>> 2) &&& 1 = 1 ∧
      (lowerFrame v SR_RS_BIT >>> 2) &&& 1 = 1 := by decide

/-- Claim C1: for every byte value v and both modes, send transmits
exactly two shift-register frames (the data-carrying, non-zero shift
bytes); the upper frame bits 6..3 as high nibble concatenated with
the lower frame bits 6..3 as low nibble reconstruct v exactly, and
bit 2 of both frames equals the register-select mode flag (0 for
command mode, 1 for data mode). -/
theorem send_frames_reconstruct (st : ShiftRegLCD) (v mode : Nat)
    (hv : v < 256) :
    frames (send st v mode) =
      [upperFrame v (rsBit mode), lowerFrame v (rsBit mode)] ∧
    ((upperFrame v (rsBit mode) >>> 3) &&& 0xF) * 16 +
      ((lowerFrame v (rsBit mode) >>> 3) &&& 0xF) = v ∧
    (upperFrame v (rsBit mode) >>> 2) &&& 1 =
      (if mode ≠ 0 then 1 else 0) ∧
    (lowerFrame v (rsBit mode) >>> 2) &&& 1 =
      (if mode ≠ 0 then 1 else 0) := by
  refine ⟨frames_send st v mode, ?_, ?_, ?_⟩
  · by_cases hm : mode = 0
    · simpa [rsBit, hm] using recon_rs0 v hv
    · simpa [rsBit, hm] using recon_rs4 v hv
  · by_cases hm : mode = 0
    · simpa [rsBit, hm] using (bit2_rs0 v hv).1
    · simpa [rsBit, hm] using (bit2_rs4 v hv).1
  · by_cases hm : mode = 0
    · simpa [rsBit, hm] using (bit2_rs0 v hv).2
    · simpa [rsBit, hm] using (bit2_rs4 v hv).2

/-- Witness for claim C1 at v = 0xA7, data mode, on a concrete
post-initialization state. -/
theorem send_frames_reconstruct_witness :
    ((0xA7 : Nat) < 256) ∧
    (frames (send sampleState 0xA7 1) =
      [upperFrame 0xA7 (rsBit 1), lowerFrame 0xA7 (rsBit 1)] ∧
    ((upperFrame 0xA7 (rsBit 1) >>> 3) &&& 0xF) * 16 +
      ((lowerFrame 0xA7 (rsBit 1) >>> 3) &&& 0xF) = 0xA7 ∧
    (upperFrame 0xA7 (rsBit 1) >>> 2) &&& 1 =
      (if (1 : Nat) ≠ 0 then 1 else 0) ∧
    (lowerFrame 0xA7 (rsBit 1) >>> 2) &&& 1 =
      (if (1 : Nat) ≠ 0 then 1 else 0)) :=
  ⟨by decide, send_frames_reconstruct sampleState 0xA7 1 (by decide)⟩

/-- Claim C2 (refuted as stated; evaluation at the failing input): in
a two-line configuration the source does not clamp row = 5, because
the clamp compares against _numlines = LCD_2LINE = 8, not against the
line count; setCursor(0, 5) indexes row_offsets out of bounds (the
embedding returns none), whereas setCursor(0, 1) sends the
set-DDRAM-address command with offset 0x40. -/
theorem setCursor_row5_not_clamped :
    setCursor sampleState 0 5 = none ∧
    setCursor sampleState 0 1 = some (Tx.cmd 0xC0) ∧
    sampleState.numlines = LCD_2LINE := by decide

/-- Claim C3 (refuted as stated; evaluation at failing inputs): the
out-of-range branch of the row-offset lookup is reachable: in a
two-line configuration row = 4 survives the clamp and indexes the
4-entry table out of bounds, and in a one-line configuration row = 1
is clamped to _numlines - 1 = 255 on uint8_t, also out of bounds. -/
theorem setCursor_offsets_out_of_range_reachable :
    row_offsets.get? (clampRow sampleState.numlines 4) = none ∧
    setCursor sampleState 0 4 = none ∧
    clampRow ((init 1 1 0).1.numlines) 1 = 255 ∧
    setCursor (init 1 1 0).1 0 1 = none := by decide

/-- Claim C4: initializing with lines = 2 and font = 0 leaves the
cached function-set mask equal to the OR of the 4-bit-mode, 2-line
and 5x8-font flags, and the last function-set byte transmitted during
initialization is exactly that mask OR the function-set opcode. -/
theorem init_functionset_final :
    (init 1 2 0).1.displayfunction =
      (LCD_4BITMODE ||| LCD_2LINE ||| LCD_5x8DOTS) ∧
    ((init 1 2 0).2.filter isFunctionSet).getLast? =
      some (Tx.cmd (LCD_FUNCTIONSET |||
        (LCD_4BITMODE ||| LCD_2LINE ||| LCD_5x8DOTS))) := by decide

/-- Claim C6 (refuted as stated; evaluation at the failing input):
write(65) sends exactly one character-data byte but returns 0, not 1,
the count of bytes accepted. -/
theorem write_sends_one_returns_zero :
    write 65 = ([Tx.dat 65], 0) ∧ (write 65).2 ≠ 1 := by decide

/-- Claim C5: every single-bit mutator of a cached bitmask field
(display/noDisplay, cursor/noCursor, blink/noBlink on the
display-control mask; shiftLeft/shiftRight,
shiftIncrement/shiftDecrement on the entry-mode mask) performs a
read-modify-write of the full cached field and transmits, in that
same operation, exactly the containing command byte, the opcode OR
the updated field - so the cached field always equals the field of
the last byte sent. -/
theorem mutators_resend_full_command (st : ShiftRegLCD) :
    ((display st).2 =
        [Tx.cmd (LCD_DISPLAYCONTROL ||| (display st).1.displaycontrol)] ∧
      (display st).1.displaycontrol =
        (st.displaycontrol ||| LCD_DISPLAYON) % 256) ∧
    ((noDisplay st).2 =
        [Tx.cmd (LCD_DISPLAYCONTROL ||| (noDisplay st).1.displaycontrol)] ∧
      (noDisplay st).1.displaycontrol =
        (st.displaycontrol &&& (0xFF ^^^ LCD_DISPLAYON)) % 256) ∧
    ((cursor st).2 =
        [Tx.cmd (LCD_DISPLAYCONTROL ||| (cursor st).1.displaycontrol)] ∧
      (cursor st).1.displaycontrol =
        (st.displaycontrol ||| LCD_CURSORON) % 256) ∧
    ((noCursor st).2 =
        [Tx.cmd (LCD_DISPLAYCONTROL ||| (noCursor st).1.displaycontrol)] ∧
      (noCursor st).1.displaycontrol =
        (st.displaycontrol &&& (0xFF ^^^ LCD_CURSORON)) % 256) ∧
    ((blink st).2 =
        [Tx.cmd (LCD_DISPLAYCONTROL ||| (blink st).1.displaycontrol)] ∧
      (blink st).1.displaycontrol =
        (st.displaycontrol ||| LCD_BLINKON) % 256) ∧
    ((noBlink st).2 =
        [Tx.cmd (LCD_DISPLAYCONTROL ||| (noBlink st).1.displaycontrol)] ∧
      (noBlink st).1.displaycontrol =
        (st.displaycontrol &&& (0xFF ^^^ LCD_BLINKON)) % 256) ∧
    ((shiftLeft st).2 =
        [Tx.cmd (LCD_ENTRYMODESET ||| (shiftLeft st).1.displaymode)] ∧
      (shiftLeft st).1.displaymode =
        (st.displaymode ||| LCD_ENTRYLEFT) % 256) ∧
    ((shiftRight st).2 =
        [Tx.cmd (LCD_ENTRYMODESET ||| (shiftRight st).1.displaymode)] ∧
      (shiftRight st).1.displaymode =
        (st.displaymode &&& (0xFF ^^^ LCD_ENTRYLEFT)) % 256) ∧
    ((shiftIncrement st).2 =
        [Tx.cmd (LCD_ENTRYMODESET ||| (shiftIncrement st).1.displaymode)] ∧
      (shiftIncrement st).1.displaymode =
        (st.displaymode ||| LCD_ENTRYSHIFTINCREMENT) % 256) ∧
    ((shiftDecrement st).2 =
        [Tx.cmd (LCD_ENTRYMODESET ||| (shiftDecrement st).1.displaymode)] ∧
      (shiftDecrement st).1.displaymode =
        (st.displaymode &&& (0xFF ^^^ LCD_ENTRYSHIFTINCREMENT)) % 256) := by
  refine ⟨⟨?_, rfl⟩, ⟨?_, rfl⟩, ⟨?_, rfl⟩, ⟨?_, rfl⟩, ⟨?_, rfl⟩,
    ⟨?_, rfl⟩, ⟨?_, rfl⟩, ⟨?_, rfl⟩, ⟨?_, rfl⟩, ⟨?_, rfl⟩⟩ <;>
    simp [display, noDisplay, cursor, noCursor, blink, noBlink,
      shiftLeft, shiftRight, shiftIncrement, shiftDecrement,
      command_dc, command_em]

/-- Claim C7: in two-wire mode, every frame shift-out of send and of
the nibble-only bootstrap path init4bits is immediately preceded by a
0x00 shift-out clearing the register: the observed shift sequences
are [0x00, frame1, 0x00, frame2] and [0x00, frame], with every frame
non-zero. -/
theorem twoWire_zero_clear_before_frames (st : ShiftRegLCD)
    (value mode : Nat) (h : st.two_wire = true) :
    shifts (send st value mode) =
      [0x00, upperFrame value (rsBit mode),
       0x00, lowerFrame value (rsBit mode)] ∧
    upperFrame value (rsBit mode) ≠ 0 ∧
    lowerFrame value (rsBit mode) ≠ 0 ∧
    shifts (init4bits st value) =
      [0x00, SR_EN_BIT ||| ((value >>> 1) &&& 0x78)] ∧
    SR_EN_BIT ||| ((value >>> 1) &&& 0x78) ≠ 0 := by
  refine ⟨?_, upperFrame_ne_zero value (rsBit mode),
    lowerFrame_ne_zero value (rsBit mode), ?_, en_or_ne_zero _⟩ <;>
    simp [send, init4bits, shifts, h]

/-- Witness for claim C7 on a concrete two-wire state at value 0x33,
command mode. -/
theorem twoWire_zero_clear_before_frames_witness :
    (sampleTwoWire.two_wire = true) ∧
    (shifts (send sampleTwoWire 0x33 0) =
      [0x00, upperFrame 0x33 (rsBit 0),
       0x00, lowerFrame 0x33 (rsBit 0)] ∧
    upperFrame 0x33 (rsBit 0) ≠ 0 ∧
    lowerFrame 0x33 (rsBit 0) ≠ 0 ∧
    shifts (init4bits sampleTwoWire 0x33) =
      [0x00, SR_EN_BIT ||| ((0x33 >>> 1) &&& 0x78)] ∧
    SR_EN_BIT ||| ((0x33 >>> 1) &&& 0x78) ≠ 0) :=
  ⟨by decide, twoWire_zero_clear_before_frames sampleTwoWire 0x33 0 (by decide)⟩

/-- Claim C8: from any driver state, calling display twice produces
two identical display-control transmissions and the cached
display-control mask is the same after the first and the second call. -/
theorem display_twice_idempotent (st : ShiftRegLCD) :
    (display ((display st).1)).2 = (display st).2 ∧
    (display ((display st).1)).1.displaycontrol =
      (display st).1.displaycontrol := by
  simp [display, command, byte_or_mod_or_idem]

/-- Claim C9: createChar masks its location argument to its low 3
bits, so location 9 behaves identically to location 1: same
set-CGRAM-address command (location 1 shifted left by 3), same 8 data
bytes, same final set-DDRAM-address(0) command. -/
theorem createChar_masks_location (charmap : Fin 8 → Nat) :
    createChar 9 charmap = createChar 1 charmap ∧
    (createChar 9 charmap).head? =
      some (Tx.cmd (LCD_SETCGRAMADDR ||| (1 <<< 3))) ∧
    (createChar 9 charmap).getLast? = some (Tx.cmd LCD_SETDDRAMADDR) := by
  refine ⟨rfl, rfl, ?_⟩
  show (command (LCD_SETCGRAMADDR ||| ((9 &&& 0x7) <<< 3)) ::
    (((List.finRange 8).map (fun i => (write (charmap i)).1)).flatten ++
      [command LCD_SETDDRAMADDR])).getLast? = some (Tx.cmd LCD_SETDDRAMADDR)
  rw [← List.cons_append, List.getLast?_concat]
  rfl

/-- Claim C10: both transmission primitives leave the enable line
deasserted: the last enable-pin write performed by send and by
init4bits is LOW, for every state and input. -/
theorem enable_line_left_low (st : ShiftRegLCD) (value mode : Nat) :
    (enables (send st value mode)).getLast? = some false ∧
    (enables (init4bits st value)).getLast? = some false := by
  cases h : st.two_wire <;> simp [send, init4bits, enables, h]

end ShiftRegLCDModel
